import Mathlib

/-!
Verification of the virtualized-scroll-window controller in `src/Table.tsx`:
the padding reconciler, the scroll-sync bridge (scroll handler, overlay
attach/teardown), and the rendered body of the table. The virtualizer and
the overlay scrollbar are external libraries; their outputs appear here as
data (`VirtualItem` lists, overlay instances) constrained by hypotheses
where a claim needs their contract.
-/

/-- One virtual item as produced by `rowVirtualizer.getVirtualItems()`:
an index plus estimated start/end pixel offsets. -/
structure VirtualItem where
  index : Nat
  start : Int
  «end» : Int
deriving DecidableEq, Repr

/-- Translation of
`getVirtualItems().length > 0 ? getVirtualItems()?.at(0)?.start ?? 0 : 0`
(Table.tsx line 82). -/
def paddingTop (items : List VirtualItem) : Int :=
  if items.length > 0 then ((items.head?).map VirtualItem.start).getD 0 else 0

/-- Translation of
`getVirtualItems().length > 0 ? getTotalSize() - (getVirtualItems()?.at(-1)?.end ?? 0) : 0`
(Table.tsx line 84); `totalSize` stands for `getTotalSize()`. -/
def paddingBottom (items : List VirtualItem) (totalSize : Int) : Int :=
  if items.length > 0 then totalSize - ((items.getLast?).map VirtualItem.«end»).getD 0 else 0

/-- Elements emitted inside `<tbody>`: spacer rows (a `<tr>` with one fixed-height
`<td>`) and data rows keyed by the row index rendered. -/
inductive RenderedElement where
  | spacer (height : Int)
  | dataRow (index : Nat)
deriving DecidableEq, Repr

/-- Translation of `{paddingTop > 0 && (<tr><td style=.../></tr>)}` (Table.tsx 141-145). -/
def leadingSpacer (items : List VirtualItem) : List RenderedElement :=
  if paddingTop items > 0 then [RenderedElement.spacer (paddingTop items)] else []

/-- Translation of `{paddingBottom > 0 && (<tr><td style=.../></tr>)}` (Table.tsx 159-163). -/
def trailingSpacer (items : List VirtualItem) (totalSize : Int) : List RenderedElement :=
  if paddingBottom items totalSize > 0 then
    [RenderedElement.spacer (paddingBottom items totalSize)]
  else []

/-- The whole `<tbody>` content (Table.tsx 140-164): optional top spacer,
one `<tr>` per virtual item (`getVirtualItems().map`), optional bottom spacer. -/
def renderBody (items : List VirtualItem) (totalSize : Int) : List RenderedElement :=
  leadingSpacer items
    ++ items.map (fun v => RenderedElement.dataRow v.index)
    ++ trailingSpacer items totalSize

/-- The Scroll State held in `useState` (Table.tsx 91-96). -/
structure ScrollState where
  scrollX : Int
  scrollY : Int
  lastScrollXTime : Int
  lastScrollYTime : Int
deriving DecidableEq, Repr

/-- Initial state `{ scrollX: 0, scrollY: 0, lastScrollXTime: 0, lastScrollYTime: 0 }`. -/
def initialScrollState : ScrollState :=
  { scrollX := 0, scrollY := 0, lastScrollXTime := 0, lastScrollYTime := 0 }

/-- Translation of the `events.scroll` handler (Table.tsx 102-113): `scrollX` and
`scrollY` are the offsets read from the scroll event target, `now` stands for
`Date.now()`, and the two guarded `setScrollState` merges are applied to `prev`. -/
def onScroll (scrollX scrollY now : Int) (prev : ScrollState) : ScrollState :=
  if (scrollX > 0 ∧ scrollX = 0) ∨ (scrollX = 0 ∧ scrollX > 0) then
    { prev with scrollX := scrollX, lastScrollXTime := now }
  else if (scrollY > 0 ∧ scrollY = 0) ∨ (scrollY = 0 ∧ scrollY > 0) then
    { prev with scrollY := scrollY, lastScrollYTime := now }
  else prev

/-- A scroll event: the offsets read from the event target plus the `Date.now()`
timestamp at delivery. -/
structure ScrollEvent where
  scrollX : Int
  scrollY : Int
  now : Int
deriving DecidableEq, Repr

/-- Folding the handler over a sequence of delivered scroll events. -/
def runScrollEvents (events : List ScrollEvent) : ScrollState :=
  events.foldl (fun s e => onScroll e.scrollX e.scrollY e.now s) initialScrollState

/-- A DOM element reference target; only identity matters here. -/
structure Elem where
  eid : Nat
deriving DecidableEq, Repr

/-- Translation of the guarded attach (Table.tsx 118-120):
`if (scrollRef.current && parentRef.current) initialize({ target: ..., elements: { viewport: ... } })`.
The result is the argument the overlay library was initialized with,
or `none` when initialization was skipped. -/
def attachEffect (scrollRef parentRef : Option Elem) : Option (Elem × Elem) :=
  match scrollRef, parentRef with
  | some s, some p => some (s, p)
  | _, _ => none

/-- An overlay-scrollbar instance handle, tracking how many times `destroy()`
has been invoked on it. -/
structure OverlayInstance where
  target : Elem
  viewport : Elem
  destroyCount : Nat
deriving DecidableEq, Repr

/-- A fresh instance as produced by the overlay library on initialization. -/
def makeOverlay (t v : Elem) : OverlayInstance :=
  { target := t, viewport := v, destroyCount := 0 }

/-- The `destroy()` method of an overlay instance. -/
def destroyOverlay (o : OverlayInstance) : OverlayInstance :=
  { o with destroyCount := o.destroyCount + 1 }

/-- Translation of the effect cleanup `() => osInstance()?.destroy()`
(Table.tsx 122): optional chaining destroys the instance when one exists
and is a no-op otherwise. -/
def cleanupEffect (inst : Option OverlayInstance) : Option OverlayInstance :=
  inst.map destroyOverlay

/-- One mount/unmount cycle of the `useEffect` (Table.tsx 117-123): the guarded
attach possibly creates an overlay instance, and the cleanup runs on unmount.
The result is the final state of the overlay instance, `none` when no attach
ever occurred. -/
def mountUnmountCycle (scrollRef parentRef : Option Elem) : Option OverlayInstance :=
  cleanupEffect ((attachEffect scrollRef parentRef).map (fun tp => makeOverlay tp.1 tp.2))

/-- Length of the generated dataset:
`const data = Array.from({ length: 10000 }, () => generatePerson())` (Table.tsx 26). -/
def dataLength : Nat := 10000

/-- The `estimateSize: () => 35` configuration of `useVirtualizer` (Table.tsx 78). -/
def estimateSize : Nat := 35

/-- The `overscan: 5` configuration of `useVirtualizer` (Table.tsx 79). -/
def overscanCount : Nat := 5

/-- Total virtual track height under the fixed-height model:
row count times estimated row height. -/
def totalTrackHeight : Nat := dataLength * estimateSize

/-- A row of the table's row model; for the render loop only its presence and
its accessed members (`id`, `getVisibleCells()`) matter. -/
structure Row where
  id : Nat
  visibleCells : List Nat
deriving DecidableEq, Repr

/-- Translation of the lookup `rows[virtualRow.index]` in the render loop
(Table.tsx 148): an out-of-range JavaScript index yields `undefined`,
modelled as `none`. -/
def rowAt (rows : List Row) (v : VirtualItem) : Option Row :=
  rows.get? v.index

/-- In a window whose items all have estimated height 35 and whose consecutive
items tile (each start equals the previous end), the last item ends exactly
`length * 35` below the first item's start. -/
theorem window_getLast_end (a : VirtualItem) (rest : List VirtualItem)
    (h35 : ∀ v ∈ a :: rest, v.«end» = v.start + 35)
    (hchain : (a :: rest).Chain' (fun x y => y.start = x.«end»)) :
    ∃ l, (a :: rest).getLast? = some l ∧
      l.«end» = a.start + ((rest.length + 1 : Nat) : Int) * 35 := by
  induction rest generalizing a with
  | nil =>
    refine ⟨a, rfl, ?_⟩
    have ha := h35 a (by simp)
    simpa using ha
  | cons b r ih =>
    have hR : b.start = a.«end» := (List.chain'_cons.mp hchain).1
    have hchain' : (b :: r).Chain' (fun x y => y.start = x.«end») :=
      (List.chain'_cons.mp hchain).2
    have h35' : ∀ v ∈ b :: r, v.«end» = v.start + 35 := by
      intro v hv
      exact h35 v (by simp [hv])
    obtain ⟨l, hl, hle⟩ := ih b h35' hchain'
    refine ⟨l, ?_, ?_⟩
    · simpa [List.getLast?_cons_cons] using hl
    · have ha : a.«end» = a.start + 35 := h35 a (by simp)
      rw [hle, hR, ha]
      push_cast [List.length_cons]
      ring

/-- C1: for every window produced by the virtualizer (items of estimated
height 35, tiling contiguously, an empty window only alongside a zero total
size), `paddingTop + (rendered rows) * 35 + paddingBottom = totalTrackHeight`. -/
theorem padding_plus_rows_eq_total (items : List VirtualItem) (totalSize : Int)
    (h35 : ∀ v ∈ items, v.«end» = v.start + 35)
    (hchain : items.Chain' (fun x y => y.start = x.«end»))
    (hempty : items = [] → totalSize = 0) :
    paddingTop items + (items.length : Int) * 35 + paddingBottom items totalSize
      = totalSize := by
  cases items with
  | nil => simp [paddingTop, paddingBottom, hempty rfl]
  | cons a rest =>
    obtain ⟨l, hl, hle⟩ := window_getLast_end a rest h35 hchain
    simp only [paddingTop, paddingBottom, List.length_cons, List.head?_cons, hl,
      Option.map_some', Option.getD_some, if_pos (Nat.succ_pos _)]
    rw [hle]
    push_cast
    ring

/-- C1 witness: a concrete two-row window of height-35 items with total size 70. -/
theorem padding_plus_rows_eq_total_witness :
    paddingTop [⟨0, 0, 35⟩, ⟨1, 35, 70⟩]
        + (([⟨0, 0, 35⟩, ⟨1, 35, 70⟩] : List VirtualItem).length : Int) * 35
        + paddingBottom [⟨0, 0, 35⟩, ⟨1, 35, 70⟩] 70 = 70 :=
  padding_plus_rows_eq_total [⟨0, 0, 35⟩, ⟨1, 35, 70⟩] 70
    (by decide) (by simp [List.chain'_cons]) (by simp)

/-- C3: each guard of the scroll handler is tautologically false, so the
handler is the identity on the Scroll State: after any sequence of scroll
events the state is still the initial one. -/
theorem scroll_state_never_changes (events : List ScrollEvent) :
    (∀ x y t s, onScroll x y t s = s)
      ∧ runScrollEvents events = initialScrollState := by
  have h : ∀ x y t s, onScroll x y t s = s := by
    intro x y t s
    unfold onScroll
    split_ifs with h1 h2
    · rcases h1 with ⟨h1a, h1b⟩ | ⟨h1a, h1b⟩ <;> omega
    · rcases h2 with ⟨h2a, h2b⟩ | ⟨h2a, h2b⟩ <;> omega
    · rfl
  have hfold : ∀ (es : List ScrollEvent) (s : ScrollState),
      es.foldl (fun s e => onScroll e.scrollX e.scrollY e.now s) s = s := by
    intro es
    induction es with
    | nil => intro s; rfl
    | cons e es ihe => intro s; simp [List.foldl_cons, h, ihe]
  exact ⟨h, hfold events initialScrollState⟩

/-- C2 failing input: a scroll event reporting offsets (100, 40) at time 12345
leaves the Scroll State untouched, so the handler never records new offsets
or timestamps as the spec requires. -/
theorem scroll_handler_ignores_event :
    onScroll 100 40 12345 initialScrollState = initialScrollState := by
  decide

/-- C9: the configured dataset length 10000 and estimated row height 35 give a
total track height of exactly 350000 pixels. -/
theorem total_track_height_350000 :
    totalTrackHeight = 350000 ∧ totalTrackHeight = dataLength * estimateSize :=
  ⟨rfl, rfl⟩

/-- C4: paddingTop is the first virtual item's start and paddingBottom is the
total size minus the last virtual item's end when the window is non-empty;
both are 0 when the window is empty. -/
theorem padding_from_first_and_last (items : List VirtualItem) (totalSize : Int) :
    (∀ hne : items ≠ [],
        paddingTop items = (items.head hne).start
          ∧ paddingBottom items totalSize = totalSize - (items.getLast hne).«end»)
    ∧ (items = [] → paddingTop items = 0 ∧ paddingBottom items totalSize = 0) := by
  cases items with
  | nil =>
    refine ⟨fun hne => absurd rfl hne, fun _ => ⟨rfl, rfl⟩⟩
  | cons a rest =>
    refine ⟨fun hne => ⟨?_, ?_⟩, fun habs => by simp at habs⟩
    · simp [paddingTop]
    · simp [paddingBottom, List.getLast?_eq_getLast _ hne]

/-- C5: initialization of the overlay happens exactly when both element
references are set; when either is unset the attach is skipped (the effect
returns without initializing and raises nothing). -/
theorem attach_skipped_iff_ref_unset (scrollRef parentRef : Option Elem) :
    (attachEffect scrollRef parentRef = none ↔ scrollRef = none ∨ parentRef = none)
    ∧ ((attachEffect scrollRef parentRef).isSome ↔ scrollRef.isSome ∧ parentRef.isSome) := by
  cases scrollRef <;> cases parentRef <;> simp [attachEffect]

/-- C6: over a mount/unmount cycle, whenever the attach succeeded the overlay
instance is destroyed exactly once on teardown; when no attach occurred the
optional-chained cleanup is a no-op; in every case no undestroyed instance
survives the unmount. -/
theorem overlay_destroyed_exactly_once (scrollRef parentRef : Option Elem) :
    ((attachEffect scrollRef parentRef).isSome →
        ∃ o, mountUnmountCycle scrollRef parentRef = some o ∧ o.destroyCount = 1)
    ∧ (attachEffect scrollRef parentRef = none →
        mountUnmountCycle scrollRef parentRef = none)
    ∧ (∀ o, mountUnmountCycle scrollRef parentRef = some o → o.destroyCount = 1) := by
  cases scrollRef <;> cases parentRef <;>
    simp [mountUnmountCycle, cleanupEffect, attachEffect, makeOverlay, destroyOverlay]

/-- C7: a spacer row is emitted exactly when the corresponding padding is
strictly positive, and every spacer in the rendered body has positive height. -/
theorem spacer_iff_positive_padding (items : List VirtualItem) (totalSize : Int) :
    (leadingSpacer items ≠ [] ↔ paddingTop items > 0)
    ∧ (trailingSpacer items totalSize ≠ [] ↔ paddingBottom items totalSize > 0)
    ∧ (∀ h : Int, RenderedElement.spacer h ∈ renderBody items totalSize → h > 0) := by
  refine ⟨?_, ?_, ?_⟩
  · unfold leadingSpacer
    split_ifs with hp <;> simp [hp]
  · unfold trailingSpacer
    split_ifs with hp <;> simp [hp]
  · intro h hmem
    unfold renderBody leadingSpacer trailingSpacer at hmem
    rcases List.mem_append.mp hmem with hmem | hmem
    · rcases List.mem_append.mp hmem with hmem | hmem
      · split_ifs at hmem with hp
        · simp at hmem
          omega
        · simp at hmem
      · simp at hmem
    · split_ifs at hmem with hp
      · simp at hmem
        omega
      · simp at hmem

/-- C8: with rowCount 0 the virtualizer's window is empty, the virtual track
is 0 pixels, both paddings are 0 and the rendered body holds no spacer and
no data row. -/
theorem empty_rowcount_renders_nothing (items : List VirtualItem) (rowCount : Nat)
    (hrc : rowCount = 0) (hitems : items = []) :
    paddingTop items = 0 ∧ paddingBottom items ((rowCount : Int) * 35) = 0
      ∧ renderBody items ((rowCount : Int) * 35) = [] := by
  subst hrc
  subst hitems
  refine ⟨by decide, by decide, by decide⟩

/-- C8 witness: the empty window with rowCount 0. -/
theorem empty_rowcount_renders_nothing_witness :
    paddingTop [] = 0 ∧ paddingBottom [] (((0 : Nat) : Int) * 35) = 0
      ∧ renderBody [] (((0 : Nat) : Int) * 35) = [] :=
  empty_rowcount_renders_nothing [] 0 rfl rfl

/-- C10: when a virtual item's index lies below the row count, the lookup
`rows[virtualRow.index]` yields a defined row, so `row.id` and
`row.getVisibleCells()` never dereference undefined. -/
theorem row_lookup_defined (rows : List Row) (v : VirtualItem)
    (h : v.index < rows.length) :
    ∃ r, rowAt rows v = some r := by
  unfold rowAt
  exact ⟨rows.get ⟨v.index, h⟩, List.get?_eq_get h⟩

/-- C10 witness: a one-row model and the virtual item of index 0. -/
theorem row_lookup_defined_witness :
    ∃ r, rowAt [⟨0, [0]⟩] ⟨0, 0, 35⟩ = some r :=
  row_lookup_defined [⟨0, [0]⟩] ⟨0, 0, 35⟩ (by decide)
